import Mathlib

/-! Shallow embedding of the serverhealth monitoring and notification core
(notifications.go, monitor.go and the shared-evaluator monitor variant).

Conventions of the embedding:
- Go `map[string]int` counters are total functions `String → Nat`
  (a missing key reads as 0, exactly as in Go).
- Go `float64` usage samples are `ℚ`; comparisons between floats are
  order-faithful, and the constants involved (thresholds, the 95 cut)
  are exact in both representations.
- Go `time.Time` is a `Nat` tick where 0 plays the role of the zero
  `time.Time` (Go's `time.Now()` is never the zero value).
- HTTP attempts are driven by an oracle `Nat → AttemptResult` giving the
  outcome of each numbered attempt; sleeps are recorded as a list of the
  delays (in seconds) taken between consecutive attempts.
- `fmt`-formatted string fields that no verified property inspects
  textually (the "85.30%" style value strings) keep their numeric value.
-/

/-- Go type `NotificationType` from notifications.go. -/
inductive NotificationType where
  | slack
  | telegram
  | discord
deriving DecidableEq, Repr

/-- The Go string constant behind each `NotificationType`. -/
def NotificationType.name : NotificationType → String
  | .slack => "slack"
  | .telegram => "telegram"
  | .discord => "discord"

/-- Go type `NotificationLevel` from notifications.go. -/
inductive NotificationLevel where
  | info
  | warning
  | error
deriving DecidableEq, Repr

/-- Go struct `NotificationMessage` from notifications.go.  `value` and `threshold`
are kept numeric (Go stores their `fmt.Sprintf` renderings). -/
structure NotificationMessage where
  type : NotificationType
  level : NotificationLevel
  title : String
  message : String
  hostname : String
  ip : String
  timestamp : Nat
  metric : String
  value : ℚ
  threshold : Int
deriving DecidableEq, Repr

/-- Go struct `MonitoringConfig` from config.go (per-metric block). -/
structure MonitoringConfig where
  enabled : Bool
  threshold : Int
  checkInterval : Int
  maxDailyAlerts : Int
deriving DecidableEq, Repr

/-- The per-monitor alerting state of the shared-evaluator monitor variant:
its `notificationCounts` map and `lastResetDate` string. -/
structure MonitorState where
  counts : String → Nat
  lastResetDate : String

/-- Function `resetDailyCounts` of the shared-evaluator monitor variant: when the
current date string differs from `lastResetDate`, replace the counts map
with a fresh empty one and record the current date; otherwise no change. -/
def resetDailyCounts (currentDate : String) (s : MonitorState) : MonitorState :=
  if s.lastResetDate ≠ currentDate then
    { counts := fun _ => 0, lastResetDate := currentDate }
  else
    s

/-- Result of one metric evaluation cycle: the updated monitor state and
the messages handed to `NotificationManager.Send` (in order). -/
structure CheckOutcome where
  state : MonitorState
  sent : List NotificationMessage

/-- Function `checkMetricUsage` of the shared-evaluator monitor variant.
`currentDate` and `now` stand for the `time.Now()` reads, `sample` for the
`getUsage()` call's result.  The function first runs `resetDailyCounts`,
then suppresses when today's count has reached `MaxDailyAlerts`, skips the
cycle on a sampling error, and otherwise fires exactly when
`usage >= Threshold`, classifying `error` at `usage >= 95`. -/
def checkMetricUsage (currentDate : String) (now : Nat) (hostname ip : String)
    (metricKey : String) (config : MonitoringConfig)
    (sample : Except String ℚ) (metricName : String) (s : MonitorState) :
    CheckOutcome :=
  let s1 := resetDailyCounts currentDate s
  if (s1.counts metricKey : Int) ≥ config.maxDailyAlerts then
    { state := s1, sent := [] }
  else
    match sample with
    | .error _ => { state := s1, sent := [] }
    | .ok usage =>
      if usage ≥ (config.threshold : ℚ) then
        let level := if usage ≥ 95 then NotificationLevel.error
                     else NotificationLevel.warning
        let msg : NotificationMessage :=
          { type := NotificationType.slack
            level := level
            title := metricName ++ " Usage Alert"
            message := metricName ++ " usage has exceeded the threshold of "
                        ++ toString config.threshold ++ "%"
            hostname := hostname
            ip := ip
            timestamp := now
            metric := metricName ++ " Usage"
            value := usage
            threshold := config.threshold }
        { state := { s1 with
            counts := fun k => if k = metricKey then s1.counts k + 1 else s1.counts k }
          sent := [msg] }
      else
        { state := s1, sent := [] }

/-- Result of one disk check of monitor.go: updated counts map and the
messages handed to `NotificationManager.Send`. -/
structure DiskCheckOutcome where
  counts : String → Nat
  sent : List NotificationMessage

/-- Function `checkDiskUsage` from monitor.go (the per-metric monitor variant):
no reset happens inside the check; disk usage is an integer there. -/
def checkDiskUsage (now : Nat) (hostname ip : String) (config : MonitoringConfig)
    (counts : String → Nat) (sample : Except String Int) : DiskCheckOutcome :=
  if (counts "disk" : Int) ≥ config.maxDailyAlerts then
    { counts := counts, sent := [] }
  else
    match sample with
    | .error _ => { counts := counts, sent := [] }
    | .ok usage =>
      if usage ≥ config.threshold then
        let level := if usage ≥ 95 then NotificationLevel.error
                     else NotificationLevel.warning
        let msg : NotificationMessage :=
          { type := NotificationType.slack
            level := level
            title := "Disk Usage Alert"
            message := "Disk usage has exceeded the threshold of "
                        ++ toString config.threshold ++ "%"
            hostname := hostname
            ip := ip
            timestamp := now
            metric := "Disk Usage"
            value := (usage : ℚ)
            threshold := config.threshold }
        { counts := fun k => if k = "disk" then counts k + 1 else counts k
          sent := [msg] }
      else
        { counts := counts, sent := [] }

/-- Constant `resetNotificationHour` from monitor.go. -/
def resetNotificationHour : Int := 0

/-- The body of one tick of `resetNotificationCounts` from monitor.go:
at hour 0 the counts map is replaced by a fresh empty one. -/
def resetHourlyTick (hour : Int) (counts : String → Nat) : String → Nat :=
  if hour = resetNotificationHour then fun _ => 0 else counts

/-- Outcome of a single HTTP POST attempt inside a provider's
`sendHTTPRequest`: either `client.Do` fails at the transport level, or a
response with the given status code comes back. -/
inductive AttemptResult where
  | transportErr
  | status (code : Int)
deriving DecidableEq, Repr

/-- The value `sendHTTPRequest` returns, up to the identity of the error:
`ok` is the nil return on `resp.StatusCode == http.StatusOK`;
`requestFailed` is the "failed to send request" wrap of a final transport
error; `failedAfter n` is the "failed to send notification after n
attempts" error produced after the retry loop exhausts on non-200
responses. -/
inductive SendResult where
  | ok
  | requestFailed
  | failedAfter (attempts : Nat)
deriving DecidableEq, Repr

/-- Everything observable about one `sendHTTPRequest` run: its returned
value, how many HTTP attempts were made, and the list of inter-attempt
sleeps (seconds) in order. -/
structure SendTrace where
  result : SendResult
  attempts : Nat
  delays : List Nat
deriving DecidableEq, Repr

/-- The `maxRetries` constant of `sendHTTPRequest` (all three provider copies). -/
def maxRetries : Nat := 3

/-- The `retryDelay` constant of `sendHTTPRequest`, in seconds. -/
def retryDelay : Nat := 5

/-- The retry loop of `sendHTTPRequest`, one provider copy of which lives
in each of SlackProvider, TelegramProvider and DiscordProvider (the three
copies are textually identical).  `attempt` is the Go loop variable, the
fuel argument bounds the recursion and is never exhausted because every
continuing branch requires `attempt < maxRetries`. -/
def attemptLoop (oracle : Nat → AttemptResult) : Nat → Nat → SendTrace
  | _, 0 => { result := .failedAfter maxRetries, attempts := 0, delays := [] }
  | attempt, fuel + 1 =>
    match oracle attempt with
    | .transportErr =>
      if attempt < maxRetries then
        let t := attemptLoop oracle (attempt + 1) fuel
        { result := t.result, attempts := t.attempts + 1, delays := retryDelay :: t.delays }
      else
        { result := .requestFailed, attempts := 1, delays := [] }
    | .status code =>
      if code = 200 then
        { result := .ok, attempts := 1, delays := [] }
      else if attempt < maxRetries then
        let t := attemptLoop oracle (attempt + 1) fuel
        { result := t.result, attempts := t.attempts + 1, delays := retryDelay :: t.delays }
      else
        { result := .failedAfter maxRetries, attempts := 1, delays := [] }

/-- Function `sendHTTPRequest` from notifications.go, run against an attempt
oracle: attempts are numbered from 1 as in the Go `for` loop. -/
def sendHTTPRequest (oracle : Nat → AttemptResult) : SendTrace :=
  attemptLoop oracle 1 maxRetries

/-- An attempt outcome that the Go loop treats as a failure: a transport
error or any status other than exactly 200. -/
def isFailedAttempt : AttemptResult → Bool
  | .transportErr => true
  | .status code => code != 200

/-- A registered provider as the NotificationManager sees it: the result
its `Validate()` returns (`some e` an error, `none` success) and its
`GetType()`. -/
structure ProviderModel where
  validateErr : Option String
  ptype : NotificationType
deriving DecidableEq, Repr

/-- Method `NotificationManager.AddProvider`: validate first; on error return it
and leave the provider list untouched, on success append. -/
def addProvider (providers : List ProviderModel) (p : ProviderModel) :
    List ProviderModel × Option String :=
  match p.validateErr with
  | some e => (providers, some ("invalid provider " ++ p.ptype.name ++ ": " ++ e))
  | none => (providers ++ [p], none)

/-- Method `NotificationManager.Send`: with no providers it logs and returns at
once; otherwise it defaults a zero timestamp to `now` (mutating the shared
message) and hands the message to every registered provider.  Returns the
message as the caller now sees it and the list of provider invocations
(provider, message it received). -/
def managerSend (providers : List ProviderModel) (msg : NotificationMessage)
    (now : Nat) : NotificationMessage × List (ProviderModel × NotificationMessage) :=
  if providers.isEmpty then
    (msg, [])
  else
    let m := if msg.timestamp = 0 then { msg with timestamp := now } else msg
    (m, providers.map (fun p => (p, m)))

/-- One full evaluation cycle followed by the deliveries it causes, with
the per-provider delivery outcome supplied by `deliver`.  The first
component is everything the evaluator observes; the second is the list of
delivery results of the fire-and-forget goroutines. -/
def alertCycleWithDelivery (currentDate : String) (now : Nat) (hostname ip : String)
    (metricKey : String) (config : MonitoringConfig) (sample : Except String ℚ)
    (metricName : String) (s : MonitorState) (providers : List ProviderModel)
    (deliver : ProviderModel → SendResult) : CheckOutcome × List SendResult :=
  let o := checkMetricUsage currentDate now hostname ip metricKey config sample metricName s
  (o, (o.sent.map (fun m => ((managerSend providers m now).2).map (fun pm => deliver pm.1))).flatten)

/-- Predicate `leadsWith pat s`: `pat` occurs at the very start of `s` (character
list version of string matching, used to express `strings.Contains`). -/
def leadsWith : List Char → List Char → Bool
  | [], _ => true
  | _ :: _, [] => false
  | a :: as, b :: bs => a = b && leadsWith as bs

/-- Predicate `containsSeq hay pat`: `pat` occurs somewhere inside `hay`. -/
def containsSeq : List Char → List Char → Bool
  | [], pat => leadsWith pat []
  | c :: t, pat => leadsWith pat (c :: t) || containsSeq t pat

/-- Go `strings.Contains sub` on strings. -/
def strContains (s pat : String) : Bool :=
  containsSeq s.toList pat.toList

/-- What the validators read off Go's `url.Parse` result. -/
structure ParsedURL where
  scheme : String
  host : String
deriving DecidableEq, Repr

/-- Split a character list at the first "://", returning what precedes it
and what follows.  Mirrors how `url.Parse` carves scheme and authority out
of the absolute webhook URLs the validators receive. -/
def splitSchemeSep : List Char → Option (List Char × List Char)
  | [] => none
  | c :: rest =>
    if c = ':' then
      match rest with
      | '/' :: '/' :: tail => some ([], tail)
      | _ => none
    else
      match splitSchemeSep rest with
      | some (pre, post) => some (c :: pre, post)
      | none => none

/-- The fragment of Go's `url.Parse` the validators rely on: for an
absolute URL `scheme://host/rest`, the scheme and the host (authority up
to the first slash). -/
def parseURL (s : String) : Option ParsedURL :=
  match splitSchemeSep s.toList with
  | none => none
  | some (pre, post) =>
    some { scheme := String.mk pre
           host := String.mk (post.takeWhile (fun c => c ≠ '/')) }

/-- Method `SlackProvider.Validate` from notifications.go: non-empty URL, it must
parse, scheme must be https, and the parsed host must CONTAIN
"hooks.slack.com" as a substring. -/
def slackValidate (webhookURL : String) : Option String :=
  if webhookURL = "" then
    some "webhook URL is required"
  else
    match parseURL webhookURL with
    | none => some "invalid URL format"
    | some u =>
      if u.scheme ≠ "https" then
        some "webhook URL must use HTTPS"
      else if strContains u.host "hooks.slack.com" then
        none
      else
        some "webhook URL must be from hooks.slack.com"

/-- Method `DiscordProvider.Validate` from notifications.go: like Slack's, with
substring containment of "discord.com" or "discordapp.com" in the host. -/
def discordValidate (webhookURL : String) : Option String :=
  if webhookURL = "" then
    some "webhook URL is required"
  else
    match parseURL webhookURL with
    | none => some "invalid URL format"
    | some u =>
      if u.scheme ≠ "https" then
        some "webhook URL must use HTTPS"
      else if strContains u.host "discord.com" || strContains u.host "discordapp.com" then
        none
      else
        some "webhook URL must be from discord.com or discordapp.com"

/-- Method `TelegramProvider.Validate` from notifications.go. -/
def telegramValidate (botToken chatID : String) : Option String :=
  if botToken = "" then
    some "bot token is required"
  else if chatID = "" then
    some "chat ID is required"
  else
    none

/-- A SlackProvider with the given webhook URL, as the manager sees it. -/
def slackProviderModel (webhookURL : String) : ProviderModel :=
  { validateErr := slackValidate webhookURL, ptype := .slack }

/-- A DiscordProvider with the given webhook URL, as the manager sees it. -/
def discordProviderModel (webhookURL : String) : ProviderModel :=
  { validateErr := discordValidate webhookURL, ptype := .discord }

/-- The message `checkMetricUsage` constructs on a breach (spelled out, so
lemmas can name it). -/
def breachMessage (now : Nat) (hostname ip metricName : String)
    (config : MonitoringConfig) (usage : ℚ) : NotificationMessage :=
  { type := NotificationType.slack
    level := if usage ≥ 95 then NotificationLevel.error else NotificationLevel.warning
    title := metricName ++ " Usage Alert"
    message := metricName ++ " usage has exceeded the threshold of "
                ++ toString config.threshold ++ "%"
    hostname := hostname
    ip := ip
    timestamp := now
    metric := metricName ++ " Usage"
    value := usage
    threshold := config.threshold }

theorem checkMetricUsage_quota (currentDate : String) (now : Nat)
    (hostname ip metricKey metricName : String) (config : MonitoringConfig)
    (sample : Except String ℚ) (s : MonitorState)
    (hq : ((resetDailyCounts currentDate s).counts metricKey : Int) ≥ config.maxDailyAlerts) :
    checkMetricUsage currentDate now hostname ip metricKey config sample metricName s =
      { state := resetDailyCounts currentDate s, sent := [] } := by
  unfold checkMetricUsage
  rw [if_pos hq]

theorem checkMetricUsage_sampleErr (currentDate : String) (now : Nat)
    (hostname ip metricKey metricName : String) (config : MonitoringConfig)
    (e : String) (s : MonitorState)
    (hq : ¬ ((resetDailyCounts currentDate s).counts metricKey : Int) ≥ config.maxDailyAlerts) :
    checkMetricUsage currentDate now hostname ip metricKey config (.error e) metricName s =
      { state := resetDailyCounts currentDate s, sent := [] } := by
  simp only [checkMetricUsage]
  rw [if_neg hq]

theorem checkMetricUsage_below (currentDate : String) (now : Nat)
    (hostname ip metricKey metricName : String) (config : MonitoringConfig)
    (usage : ℚ) (s : MonitorState)
    (hq : ¬ ((resetDailyCounts currentDate s).counts metricKey : Int) ≥ config.maxDailyAlerts)
    (ht : ¬ usage ≥ (config.threshold : ℚ)) :
    checkMetricUsage currentDate now hostname ip metricKey config (.ok usage) metricName s =
      { state := resetDailyCounts currentDate s, sent := [] } := by
  simp only [checkMetricUsage]
  rw [if_neg hq]
  simp only [ge_iff_le, not_le] at ht
  rw [if_neg (not_le.mpr ht)]

theorem checkMetricUsage_breach (currentDate : String) (now : Nat)
    (hostname ip metricKey metricName : String) (config : MonitoringConfig)
    (usage : ℚ) (s : MonitorState)
    (hq : ¬ ((resetDailyCounts currentDate s).counts metricKey : Int) ≥ config.maxDailyAlerts)
    (ht : usage ≥ (config.threshold : ℚ)) :
    checkMetricUsage currentDate now hostname ip metricKey config (.ok usage) metricName s =
      { state :=
          { counts := fun k =>
              if k = metricKey then (resetDailyCounts currentDate s).counts k + 1
              else (resetDailyCounts currentDate s).counts k
            lastResetDate := (resetDailyCounts currentDate s).lastResetDate }
        sent := [breachMessage now hostname ip metricName config usage] } := by
  simp only [checkMetricUsage]
  rw [if_neg hq, if_pos ht]
  rfl

theorem resetDailyCounts_sameDate (currentDate : String) (s : MonitorState)
    (h : s.lastResetDate = currentDate) :
    resetDailyCounts currentDate s = s := by
  unfold resetDailyCounts
  rw [if_neg (by simpa using h)]

/-- The message `checkDiskUsage` of monitor.go constructs on a breach. -/
def diskBreachMessage (now : Nat) (hostname ip : String)
    (config : MonitoringConfig) (usage : Int) : NotificationMessage :=
  { type := NotificationType.slack
    level := if usage ≥ 95 then NotificationLevel.error else NotificationLevel.warning
    title := "Disk Usage Alert"
    message := "Disk usage has exceeded the threshold of "
                ++ toString config.threshold ++ "%"
    hostname := hostname
    ip := ip
    timestamp := now
    metric := "Disk Usage"
    value := (usage : ℚ)
    threshold := config.threshold }

theorem checkDiskUsage_quota (now : Nat) (hostname ip : String)
    (config : MonitoringConfig) (counts : String → Nat) (sample : Except String Int)
    (hq : (counts "disk" : Int) ≥ config.maxDailyAlerts) :
    checkDiskUsage now hostname ip config counts sample =
      { counts := counts, sent := [] } := by
  simp only [checkDiskUsage]
  rw [if_pos hq]

theorem checkDiskUsage_sampleErr (now : Nat) (hostname ip : String)
    (config : MonitoringConfig) (counts : String → Nat) (e : String)
    (hq : ¬ (counts "disk" : Int) ≥ config.maxDailyAlerts) :
    checkDiskUsage now hostname ip config counts (.error e) =
      { counts := counts, sent := [] } := by
  simp only [checkDiskUsage]
  rw [if_neg hq]

theorem checkDiskUsage_breach (now : Nat) (hostname ip : String)
    (config : MonitoringConfig) (counts : String → Nat) (usage : Int)
    (hq : ¬ (counts "disk" : Int) ≥ config.maxDailyAlerts)
    (ht : usage ≥ config.threshold) :
    checkDiskUsage now hostname ip config counts (.ok usage) =
      { counts := fun k => if k = "disk" then counts k + 1 else counts k
        sent := [diskBreachMessage now hostname ip config usage] } := by
  simp only [checkDiskUsage]
  rw [if_neg hq, if_pos ht]
  rfl

/-- Configuration fixture used by witnesses: threshold 80, 5 daily alerts. -/
def cfg80 : MonitoringConfig :=
  { enabled := true, threshold := 80, checkInterval := 1, maxDailyAlerts := 5 }

/-- State fixture used by witnesses: zero counts, last reset 2024-01-02. -/
def state0 : MonitorState :=
  { counts := fun _ => 0, lastResetDate := "2024-01-02" }

/-- Claim C1: on every evaluation cycle whose sample is at or above the
configured threshold while today's sent count is strictly below the daily
maximum, exactly one message is handed to `NotificationManager.Send` and
the metric's sent count rises by exactly 1; both facts hold for every
assignment of per-provider delivery outcomes, i.e. regardless of whether
any delivery succeeds or fails. -/
theorem c1_breach_sends_once_and_increments
    (currentDate : String) (now : Nat) (hostname ip metricKey metricName : String)
    (config : MonitoringConfig) (usage : ℚ) (s : MonitorState)
    (providers : List ProviderModel) (deliver deliver' : ProviderModel → SendResult)
    (hq : ((resetDailyCounts currentDate s).counts metricKey : Int) < config.maxDailyAlerts)
    (ht : usage ≥ (config.threshold : ℚ)) :
    (alertCycleWithDelivery currentDate now hostname ip metricKey config (.ok usage)
        metricName s providers deliver).1.sent.length = 1 ∧
    (alertCycleWithDelivery currentDate now hostname ip metricKey config (.ok usage)
        metricName s providers deliver).1.state.counts metricKey
      = (resetDailyCounts currentDate s).counts metricKey + 1 ∧
    (alertCycleWithDelivery currentDate now hostname ip metricKey config (.ok usage)
        metricName s providers deliver).1
      = (alertCycleWithDelivery currentDate now hostname ip metricKey config (.ok usage)
          metricName s providers deliver').1 := by
  have hq' : ¬ ((resetDailyCounts currentDate s).counts metricKey : Int) ≥ config.maxDailyAlerts :=
    not_le.mpr hq
  have hb := checkMetricUsage_breach currentDate now hostname ip metricKey metricName
    config usage s hq' ht
  refine ⟨?_, ?_, rfl⟩
  · simp only [alertCycleWithDelivery, hb, List.length_singleton]
  · simp [alertCycleWithDelivery, hb]

theorem c1_witness :
    ((resetDailyCounts "2024-01-02" state0).counts "disk" : Int) < cfg80.maxDailyAlerts ∧
    (85 : ℚ) ≥ (cfg80.threshold : ℚ) ∧
    ((alertCycleWithDelivery "2024-01-02" 1 "h" "1.2.3.4" "disk" cfg80 (.ok 85)
        "Disk" state0 [] (fun _ => SendResult.ok)).1.sent.length = 1 ∧
     (alertCycleWithDelivery "2024-01-02" 1 "h" "1.2.3.4" "disk" cfg80 (.ok 85)
        "Disk" state0 [] (fun _ => SendResult.ok)).1.state.counts "disk"
       = (resetDailyCounts "2024-01-02" state0).counts "disk" + 1 ∧
     (alertCycleWithDelivery "2024-01-02" 1 "h" "1.2.3.4" "disk" cfg80 (.ok 85)
        "Disk" state0 [] (fun _ => SendResult.ok)).1
       = (alertCycleWithDelivery "2024-01-02" 1 "h" "1.2.3.4" "disk" cfg80 (.ok 85)
          "Disk" state0 [] (fun _ => SendResult.requestFailed)).1) :=
  ⟨by decide, by decide,
    c1_breach_sends_once_and_increments "2024-01-02" 1 "h" "1.2.3.4" "disk" "Disk"
      cfg80 85 state0 [] (fun _ => SendResult.ok) (fun _ => SendResult.requestFailed)
      (by decide) (by decide)⟩

/-- State fixture used by witnesses: every count already 5, last reset
2024-01-02. -/
def state5 : MonitorState :=
  { counts := fun _ => 5, lastResetDate := "2024-01-02" }

/-- Claim C2: if today's sent count already reaches the daily maximum at
the start of a cycle (in the shared evaluator: with the stored reset date
current, so the stored count is today's count), no message is handed to
Send and the state is unchanged; dually, whenever a cycle does hand a
message to Send, the count at that moment is strictly below the maximum.
The same suppression holds for monitor.go's `checkDiskUsage`. -/
theorem c2_quota_suppresses_sends
    (currentDate : String) (now : Nat) (hostname ip metricKey metricName : String)
    (config : MonitoringConfig) (sample : Except String ℚ) (s : MonitorState)
    (counts : String → Nat) (sampleD : Except String Int) :
    (s.lastResetDate = currentDate →
      (s.counts metricKey : Int) ≥ config.maxDailyAlerts →
      checkMetricUsage currentDate now hostname ip metricKey config sample metricName s =
        { state := s, sent := [] }) ∧
    ((checkMetricUsage currentDate now hostname ip metricKey config sample metricName s).sent ≠ [] →
      ((resetDailyCounts currentDate s).counts metricKey : Int) < config.maxDailyAlerts) ∧
    ((counts "disk" : Int) ≥ config.maxDailyAlerts →
      checkDiskUsage now hostname ip config counts sampleD =
        { counts := counts, sent := [] }) := by
  refine ⟨?_, ?_, ?_⟩
  · intro hdate hq
    have hr : resetDailyCounts currentDate s = s :=
      resetDailyCounts_sameDate currentDate s hdate
    have := checkMetricUsage_quota currentDate now hostname ip metricKey metricName
      config sample s (by rw [hr]; exact hq)
    rw [this, hr]
  · intro hne
    by_contra hlt
    exact hne (by
      rw [checkMetricUsage_quota currentDate now hostname ip metricKey metricName
        config sample s (not_lt.mp hlt)])
  · intro hq
    exact checkDiskUsage_quota now hostname ip config counts sampleD hq

theorem c2_witness :
    state5.lastResetDate = "2024-01-02" ∧
    (state5.counts "disk" : Int) ≥ cfg80.maxDailyAlerts ∧
    checkMetricUsage "2024-01-02" 1 "h" "1.2.3.4" "disk" cfg80 (.ok 99) "Disk" state5 =
      { state := state5, sent := [] } ∧
    checkDiskUsage 1 "h" "1.2.3.4" cfg80 state5.counts (.ok 99) =
      { counts := state5.counts, sent := [] } :=
  ⟨rfl, by decide,
    (c2_quota_suppresses_sends "2024-01-02" 1 "h" "1.2.3.4" "disk" "Disk" cfg80
      (.ok 99) state5 state5.counts (.ok 99)).1 rfl (by decide),
    (c2_quota_suppresses_sends "2024-01-02" 1 "h" "1.2.3.4" "disk" "Disk" cfg80
      (.ok 99) state5 state5.counts (.ok 99)).2.2 (by decide)⟩

/-- Claim C3: on every breaching cycle (usage at or above the threshold,
quota available) the alert message's level is `error` exactly when
`usage >= 95` and `warning` exactly when `usage < 95`, for every
configured threshold; likewise in monitor.go's integer-valued disk check. -/
theorem c3_severity_cut_at_95
    (currentDate : String) (now : Nat) (hostname ip metricKey metricName : String)
    (config : MonitoringConfig) (usage : ℚ) (s : MonitorState)
    (counts : String → Nat) (usageD : Int)
    (hq : ((resetDailyCounts currentDate s).counts metricKey : Int) < config.maxDailyAlerts)
    (ht : usage ≥ (config.threshold : ℚ))
    (hqD : (counts "disk" : Int) < config.maxDailyAlerts)
    (htD : usageD ≥ config.threshold) :
    ((checkMetricUsage currentDate now hostname ip metricKey config (.ok usage) metricName s).sent
       = [breachMessage now hostname ip metricName config usage] ∧
     ((breachMessage now hostname ip metricName config usage).level = NotificationLevel.error
       ↔ usage ≥ 95) ∧
     (¬ usage ≥ 95 →
       (breachMessage now hostname ip metricName config usage).level = NotificationLevel.warning)) ∧
    ((checkDiskUsage now hostname ip config counts (.ok usageD)).sent
       = [diskBreachMessage now hostname ip config usageD] ∧
     ((diskBreachMessage now hostname ip config usageD).level = NotificationLevel.error
       ↔ usageD ≥ 95) ∧
     (¬ usageD ≥ 95 →
       (diskBreachMessage now hostname ip config usageD).level = NotificationLevel.warning)) := by
  have hb := checkMetricUsage_breach currentDate now hostname ip metricKey metricName
    config usage s (not_le.mpr hq) ht
  have hbD := checkDiskUsage_breach now hostname ip config counts usageD
    (not_le.mpr hqD) htD
  refine ⟨⟨by rw [hb], ?_, ?_⟩, ⟨by rw [hbD], ?_, ?_⟩⟩
  · unfold breachMessage
    constructor
    · intro hl
      by_contra hge
      rw [if_neg hge] at hl
      exact NotificationLevel.noConfusion hl
    · intro hge
      rw [if_pos hge]
  · intro hge
    unfold breachMessage
    rw [if_neg hge]
  · unfold diskBreachMessage
    constructor
    · intro hl
      by_contra hge
      rw [if_neg hge] at hl
      exact NotificationLevel.noConfusion hl
    · intro hge
      rw [if_pos hge]
  · intro hge
    unfold diskBreachMessage
    rw [if_neg hge]

theorem c3_witness :
    (breachMessage 1 "h" "1.2.3.4" "Disk" cfg80 (mkRat 94999 1000)).level
      = NotificationLevel.warning ∧
    (breachMessage 1 "h" "1.2.3.4" "Disk" cfg80 95).level = NotificationLevel.error ∧
    (breachMessage 1 "h" "1.2.3.4" "Disk" cfg80 100).level = NotificationLevel.error ∧
    (checkMetricUsage "2024-01-02" 1 "h" "1.2.3.4" "disk" cfg80 (.ok (mkRat 94999 1000))
        "Disk" state0).sent
      = [breachMessage 1 "h" "1.2.3.4" "Disk" cfg80 (mkRat 94999 1000)] ∧
    (checkDiskUsage 1 "h" "1.2.3.4" cfg80 state0.counts (.ok 100)).sent
      = [diskBreachMessage 1 "h" "1.2.3.4" cfg80 100] :=
  ⟨(c3_severity_cut_at_95 "2024-01-02" 1 "h" "1.2.3.4" "disk" "Disk" cfg80
      (mkRat 94999 1000) state0 state0.counts 100 (by decide) (by decide) (by decide)
      (by decide)).1.2.2 (by decide),
   (c3_severity_cut_at_95 "2024-01-02" 1 "h" "1.2.3.4" "disk" "Disk" cfg80
      95 state0 state0.counts 100 (by decide) (by decide) (by decide)
      (by decide)).1.2.1.mpr (by decide),
   (c3_severity_cut_at_95 "2024-01-02" 1 "h" "1.2.3.4" "disk" "Disk" cfg80
      100 state0 state0.counts 100 (by decide) (by decide) (by decide)
      (by decide)).1.2.1.mpr (by decide),
   (c3_severity_cut_at_95 "2024-01-02" 1 "h" "1.2.3.4" "disk" "Disk" cfg80
      (mkRat 94999 1000) state0 state0.counts 100 (by decide) (by decide) (by decide)
      (by decide)).1.1,
   (c3_severity_cut_at_95 "2024-01-02" 1 "h" "1.2.3.4" "disk" "Disk" cfg80
      (mkRat 94999 1000) state0 state0.counts 100 (by decide) (by decide) (by decide)
      (by decide)).2.1⟩

theorem attemptFails_status {c : Int} (h : isFailedAttempt (.status c) = true) :
    ¬ c = 200 := by
  simpa [isFailedAttempt] using h

theorem c4_counterexample :
    (sendHTTPRequest (fun _ => AttemptResult.transportErr)).attempts = 3 ∧
    (sendHTTPRequest (fun _ => AttemptResult.transportErr)).result
      = SendResult.requestFailed ∧
    SendResult.requestFailed ≠ SendResult.failedAfter 3 := by decide

/-- Claim C4 (amended): a provider whose HTTP calls all fail makes exactly
3 attempts with the fixed 5-second delay between consecutive attempts;
the returned error names the number of attempts made when the final
attempt received a non-200 response, while a final transport error is
instead reported as a request failure wrapping the transport error. -/
theorem c4_amended_retry_cap (oracle : Nat → AttemptResult)
    (h1 : isFailedAttempt (oracle 1) = true)
    (h2 : isFailedAttempt (oracle 2) = true)
    (h3 : isFailedAttempt (oracle 3) = true) :
    (sendHTTPRequest oracle).attempts = 3 ∧
    (sendHTTPRequest oracle).delays = [retryDelay, retryDelay] ∧
    (oracle 3 = AttemptResult.transportErr →
      (sendHTTPRequest oracle).result = SendResult.requestFailed) ∧
    (∀ c : Int, oracle 3 = AttemptResult.status c →
      (sendHTTPRequest oracle).result = SendResult.failedAfter maxRetries) := by
  rcases ho1 : oracle 1 with _ | c1 <;> rcases ho2 : oracle 2 with _ | c2 <;>
    rcases ho3 : oracle 3 with _ | c3 <;>
    rw [ho1] at h1 <;> rw [ho2] at h2 <;> rw [ho3] at h3 <;>
    simp_all [sendHTTPRequest, attemptLoop, maxRetries, retryDelay,
      attemptFails_status]

theorem c4_witness :
    isFailedAttempt ((fun _ => AttemptResult.status 500) 1) = true ∧
    (sendHTTPRequest (fun _ => AttemptResult.status 500)).attempts = 3 ∧
    (sendHTTPRequest (fun _ => AttemptResult.status 500)).delays
      = [retryDelay, retryDelay] ∧
    (sendHTTPRequest (fun _ => AttemptResult.status 500)).result
      = SendResult.failedAfter maxRetries :=
  ⟨by decide,
   (c4_amended_retry_cap (fun _ => AttemptResult.status 500)
      (by decide) (by decide) (by decide)).1,
   (c4_amended_retry_cap (fun _ => AttemptResult.status 500)
      (by decide) (by decide) (by decide)).2.1,
   (c4_amended_retry_cap (fun _ => AttemptResult.status 500)
      (by decide) (by decide) (by decide)).2.2.2 500 rfl⟩

theorem c5_counterexample :
    (sendHTTPRequest (fun _ => AttemptResult.status 201)).result
      = SendResult.failedAfter 3 ∧
    SendResult.failedAfter 3 ≠ SendResult.ok ∧
    (sendHTTPRequest (fun _ => AttemptResult.status 204)).result
      = SendResult.failedAfter 3 ∧
    (sendHTTPRequest (fun _ => AttemptResult.status 201)).attempts = 3 := by decide

/-- Claim C5 (amended): the retry helper returns nil exactly when one of
its (up to 3) attempts receives HTTP status exactly 200; any other 2xx
status such as 201 or 204 counts as a failed attempt.  A 200 on the first
attempt returns nil after one attempt and no delay. -/
theorem c5_amended_only_exact_200 (oracle : Nat → AttemptResult) :
    ((sendHTTPRequest oracle).result = SendResult.ok ↔
      oracle 1 = AttemptResult.status 200 ∨ oracle 2 = AttemptResult.status 200 ∨
      oracle 3 = AttemptResult.status 200) ∧
    (oracle 1 = AttemptResult.status 200 →
      sendHTTPRequest oracle
        = { result := SendResult.ok, attempts := 1, delays := [] }) := by
  constructor
  · rcases ho1 : oracle 1 with _ | c1 <;> rcases ho2 : oracle 2 with _ | c2 <;>
      rcases ho3 : oracle 3 with _ | c3 <;>
      simp [sendHTTPRequest, attemptLoop, maxRetries, retryDelay, ho1, ho2, ho3] <;>
      split_ifs <;> simp_all
  · intro h1
    simp [sendHTTPRequest, attemptLoop, maxRetries, h1]

theorem c5_witness :
    (fun _ => AttemptResult.status 200) 1 = AttemptResult.status 200 ∧
    sendHTTPRequest (fun _ => AttemptResult.status 200)
      = { result := SendResult.ok, attempts := 1, delays := [] } :=
  ⟨rfl, (c5_amended_only_exact_200 (fun _ => AttemptResult.status 200)).2 rfl⟩

theorem managerSend_targets_mem (providers : List ProviderModel)
    (msg : NotificationMessage) (now : Nat) :
    ∀ q ∈ (managerSend providers msg now).2, q.1 ∈ providers := by
  intro q hq
  unfold managerSend at hq
  split at hq
  · simp at hq
  · simp only [List.mem_map] at hq
    obtain ⟨pp, hpp, hqe⟩ := hq
    rw [← hqe]
    exact hpp

/-- Claim C6: a provider whose Validate fails is rejected by AddProvider
with the validation error and the active set is unchanged, so a
subsequent manager Send (which fans out over exactly the active set)
never invokes it; a provider whose Validate succeeds is appended to the
end of the active set with a nil error. -/
theorem c6_addProvider_validation_gate
    (providers : List ProviderModel) (p : ProviderModel)
    (msg : NotificationMessage) (now : Nat) :
    (∀ e, p.validateErr = some e →
      addProvider providers p
        = (providers, some ("invalid provider " ++ p.ptype.name ++ ": " ++ e)) ∧
      (p ∉ providers → ∀ q ∈ (managerSend providers msg now).2, q.1 ≠ p)) ∧
    (p.validateErr = none → addProvider providers p = (providers ++ [p], none)) := by
  constructor
  · intro e he
    constructor
    · unfold addProvider
      rw [he]
    · intro hp q hq hqp
      exact hp (hqp ▸ managerSend_targets_mem providers msg now q hq)
  · intro he
    unfold addProvider
    rw [he]

/-- Message fixture used by witnesses. -/
def msg0 : NotificationMessage :=
  { type := NotificationType.slack
    level := NotificationLevel.warning
    title := "Disk Usage Alert"
    message := "Disk usage has exceeded the threshold of 80%"
    hostname := "h"
    ip := "1.2.3.4"
    timestamp := 1
    metric := "Disk Usage"
    value := 85
    threshold := 80 }

/-- Provider fixtures used by witnesses: one that validates, one that
does not. -/
def goodProvider : ProviderModel :=
  { validateErr := none, ptype := NotificationType.telegram }

def badProvider : ProviderModel :=
  { validateErr := some "webhook URL must use HTTPS", ptype := NotificationType.slack }

theorem c6_witness :
    badProvider.validateErr = some "webhook URL must use HTTPS" ∧
    addProvider [goodProvider] badProvider
      = ([goodProvider],
         some ("invalid provider " ++ badProvider.ptype.name ++ ": "
               ++ "webhook URL must use HTTPS")) ∧
    (∀ q ∈ (managerSend [goodProvider] msg0 1).2, q.1 ≠ badProvider) ∧
    goodProvider.validateErr = none ∧
    addProvider [] goodProvider = ([goodProvider], none) :=
  ⟨rfl,
   ((c6_addProvider_validation_gate [goodProvider] badProvider msg0 1).1
      "webhook URL must use HTTPS" rfl).1,
   ((c6_addProvider_validation_gate [goodProvider] badProvider msg0 1).1
      "webhook URL must use HTTPS" rfl).2 (by decide),
   rfl,
   (c6_addProvider_validation_gate [] goodProvider msg0 1).2 rfl⟩

/-- Claim C7: when the calendar date changes, the daily reset zeroes every
metric's count and records the new date; re-running the reset check on the
same date is a no-op, so repeated checks within one day reset at most
once.  The hour-driven tick of monitor.go is likewise idempotent and is a
no-op away from hour 0. -/
theorem c7_daily_reset_idempotent (d : String) (s : MonitorState)
    (hour : Int) (counts : String → Nat) :
    (s.lastResetDate ≠ d →
      resetDailyCounts d s = { counts := fun _ => 0, lastResetDate := d }) ∧
    resetDailyCounts d (resetDailyCounts d s) = resetDailyCounts d s ∧
    (s.lastResetDate = d → resetDailyCounts d s = s) ∧
    resetHourlyTick 0 counts = (fun _ => 0) ∧
    resetHourlyTick hour (resetHourlyTick hour counts) = resetHourlyTick hour counts ∧
    (hour ≠ 0 → resetHourlyTick hour counts = counts) := by
  refine ⟨?_, ?_, ?_, ?_, ?_, ?_⟩
  · intro hne
    unfold resetDailyCounts
    rw [if_pos hne]
  · by_cases h : s.lastResetDate = d
    · rw [resetDailyCounts_sameDate d s h, resetDailyCounts_sameDate d s h]
    · unfold resetDailyCounts
      rw [if_pos h]
      simp
  · exact resetDailyCounts_sameDate d s
  · unfold resetHourlyTick resetNotificationHour
    rw [if_pos rfl]
  · by_cases h : hour = resetNotificationHour
    · unfold resetHourlyTick
      rw [if_pos h, if_pos h]
    · unfold resetHourlyTick
      rw [if_neg h, if_neg h]
  · intro h
    unfold resetHourlyTick resetNotificationHour
    rw [if_neg h]

theorem c7_witness :
    state5.lastResetDate ≠ "2024-01-03" ∧
    resetDailyCounts "2024-01-03" state5
      = { counts := fun _ => 0, lastResetDate := "2024-01-03" } ∧
    resetDailyCounts "2024-01-03" (resetDailyCounts "2024-01-03" state5)
      = resetDailyCounts "2024-01-03" state5 ∧
    resetHourlyTick 0 state5.counts = (fun _ => 0) :=
  ⟨by decide,
   (c7_daily_reset_idempotent "2024-01-03" state5 0 state5.counts).1 (by decide),
   (c7_daily_reset_idempotent "2024-01-03" state5 0 state5.counts).2.1,
   (c7_daily_reset_idempotent "2024-01-03" state5 0 state5.counts).2.2.2.1⟩

/-- Claim C8: a cycle whose metric source returns an error hands nothing
to Send and leaves the sent count unconsumed: the state is exactly the
reset-adjusted state, and with the stored date current it is entirely
unchanged; monitor.go's disk check likewise leaves its counts untouched.
(The evaluator function is total, so the loop continues on its next tick.) -/
theorem c8_sampling_error_skips_cycle
    (currentDate : String) (now : Nat) (hostname ip metricKey metricName : String)
    (config : MonitoringConfig) (e eD : String) (s : MonitorState)
    (counts : String → Nat) :
    checkMetricUsage currentDate now hostname ip metricKey config (.error e) metricName s
      = { state := resetDailyCounts currentDate s, sent := [] } ∧
    (s.lastResetDate = currentDate →
      checkMetricUsage currentDate now hostname ip metricKey config (.error e) metricName s
        = { state := s, sent := [] }) ∧
    checkDiskUsage now hostname ip config counts (.error eD)
      = { counts := counts, sent := [] } := by
  have hmain : checkMetricUsage currentDate now hostname ip metricKey config
      (.error e) metricName s = { state := resetDailyCounts currentDate s, sent := [] } := by
    by_cases hq : ((resetDailyCounts currentDate s).counts metricKey : Int)
        ≥ config.maxDailyAlerts
    · exact checkMetricUsage_quota currentDate now hostname ip metricKey metricName
        config (.error e) s hq
    · exact checkMetricUsage_sampleErr currentDate now hostname ip metricKey metricName
        config e s hq
  refine ⟨hmain, ?_, ?_⟩
  · intro hdate
    rw [hmain, resetDailyCounts_sameDate currentDate s hdate]
  · by_cases hq : (counts "disk" : Int) ≥ config.maxDailyAlerts
    · exact checkDiskUsage_quota now hostname ip config counts (.error eD) hq
    · exact checkDiskUsage_sampleErr now hostname ip config counts eD hq

theorem c8_witness :
    checkMetricUsage "2024-01-02" 1 "h" "1.2.3.4" "disk" cfg80
        (.error "permission denied") "Disk" state0
      = { state := resetDailyCounts "2024-01-02" state0, sent := [] } ∧
    state0.lastResetDate = "2024-01-02" ∧
    checkMetricUsage "2024-01-02" 1 "h" "1.2.3.4" "disk" cfg80
        (.error "permission denied") "Disk" state0
      = { state := state0, sent := [] } ∧
    checkDiskUsage 1 "h" "1.2.3.4" cfg80 state0.counts (.error "permission denied")
      = { counts := state0.counts, sent := [] } :=
  ⟨(c8_sampling_error_skips_cycle "2024-01-02" 1 "h" "1.2.3.4" "disk" "Disk" cfg80
      "permission denied" "permission denied" state0 state0.counts).1,
   rfl,
   (c8_sampling_error_skips_cycle "2024-01-02" 1 "h" "1.2.3.4" "disk" "Disk" cfg80
      "permission denied" "permission denied" state0 state0.counts).2.1 rfl,
   (c8_sampling_error_skips_cycle "2024-01-02" 1 "h" "1.2.3.4" "disk" "Disk" cfg80
      "permission denied" "permission denied" state0 state0.counts).2.2⟩

/-- Claim C9: every message the evaluator constructs carries the
evaluator's (nonzero) clock reading as its timestamp, and for any message
with a nonzero timestamp the manager's Send leaves the message exactly as
constructed and hands that identical value, unmodified, to every provider
invocation (providers derive their wire payloads from it without writing
into it). -/
theorem c9_message_not_mutated
    (currentDate : String) (now now2 : Nat) (hostname ip metricKey metricName : String)
    (config : MonitoringConfig) (sample : Except String ℚ) (s : MonitorState)
    (providers : List ProviderModel) :
    (∀ msg ∈ (checkMetricUsage currentDate now hostname ip metricKey config
        sample metricName s).sent, msg.timestamp = now) ∧
    (∀ msg : NotificationMessage, msg.timestamp ≠ 0 →
      (managerSend providers msg now2).1 = msg ∧
      ∀ q ∈ (managerSend providers msg now2).2, q.2 = msg) := by
  constructor
  · intro msg hmsg
    by_cases hq : ((resetDailyCounts currentDate s).counts metricKey : Int)
        ≥ config.maxDailyAlerts
    · rw [checkMetricUsage_quota currentDate now hostname ip metricKey metricName
        config sample s hq] at hmsg
      simp at hmsg
    · cases sample with
      | error e =>
        rw [checkMetricUsage_sampleErr currentDate now hostname ip metricKey metricName
          config e s hq] at hmsg
        simp at hmsg
      | ok usage =>
        by_cases ht : usage ≥ (config.threshold : ℚ)
        · rw [checkMetricUsage_breach currentDate now hostname ip metricKey metricName
            config usage s hq ht] at hmsg
          simp at hmsg
          rw [hmsg]
          rfl
        · rw [checkMetricUsage_below currentDate now hostname ip metricKey metricName
            config usage s hq ht] at hmsg
          simp at hmsg
  · intro msg hts
    constructor
    · unfold managerSend
      split
      · rfl
      · simp [hts]
    · intro q hq
      unfold managerSend at hq
      split at hq
      · simp at hq
      · simp only [List.mem_map] at hq
        obtain ⟨pp, _, hqe⟩ := hq
        rw [← hqe]

theorem c9_witness :
    ((breachMessage 1 "h" "1.2.3.4" "Disk" cfg80 85).timestamp = 1) ∧
    ((breachMessage 1 "h" "1.2.3.4" "Disk" cfg80 85) ∈
      (checkMetricUsage "2024-01-02" 1 "h" "1.2.3.4" "disk" cfg80 (.ok 85)
        "Disk" state0).sent) ∧
    msg0.timestamp ≠ 0 ∧
    (managerSend [goodProvider] msg0 2).1 = msg0 ∧
    (∀ q ∈ (managerSend [goodProvider] msg0 2).2, q.2 = msg0) :=
  ⟨(c9_message_not_mutated "2024-01-02" 1 2 "h" "1.2.3.4" "disk" "Disk" cfg80
      (.ok 85) state0 [goodProvider]).1
      (breachMessage 1 "h" "1.2.3.4" "Disk" cfg80 85) (by decide),
   by decide,
   by decide,
   ((c9_message_not_mutated "2024-01-02" 1 2 "h" "1.2.3.4" "disk" "Disk" cfg80
      (.ok 85) state0 [goodProvider]).2 msg0 (by decide)).1,
   ((c9_message_not_mutated "2024-01-02" 1 2 "h" "1.2.3.4" "disk" "Disk" cfg80
      (.ok 85) state0 [goodProvider]).2 msg0 (by decide)).2⟩

/-- Claim C10: the Slack-style and Discord-style webhook validators test
their vendor domain by substring containment of the parsed host, not by
exact host equality: an HTTPS URL whose host merely embeds the vendor
domain (here "hooks.slack.com.attacker.example", and
"discord.com.attacker.example") passes Validate with nil, and AddProvider
then accepts the provider into the active set. -/
theorem c10_host_check_is_substring_containment :
    slackValidate "https://hooks.slack.com.attacker.example/x" = none ∧
    parseURL "https://hooks.slack.com.attacker.example/x"
      = some { scheme := "https", host := "hooks.slack.com.attacker.example" } ∧
    "hooks.slack.com.attacker.example" ≠ "hooks.slack.com" ∧
    strContains "hooks.slack.com.attacker.example" "hooks.slack.com" = true ∧
    addProvider [] (slackProviderModel "https://hooks.slack.com.attacker.example/x")
      = ([slackProviderModel "https://hooks.slack.com.attacker.example/x"], none) ∧
    discordValidate "https://discord.com.attacker.example/api/webhooks/1/t" = none := by
  decide
